import Mathlib

/-!
Verification of the BCS-Ophyd-ZMQ device-control bridge.

This file gives a shallow embedding of the Python sources
`src/bcs_signal.py` and `src/bcsophyd/zmq/bcs_motor.py` and proves the
behavioural claims of the specification against it.

Modelling conventions:
* Python's dynamically-typed values are modelled by `BCS.JVal`
  (None / bool / number / string / list / string-keyed dict).  Numbers are
  exact rationals; none of the verified claims depends on float rounding.
* Python exceptions are modelled by `BCS.PyErr`; fallible code returns
  `Except PyErr _`.  String rendering of interpolated values (f-strings) is
  abstracted by `BCS.jstr`; the claims do not depend on the exact rendering.
* Server replies are inputs: each modelled operation takes the reply (or a
  trace of replies) that the ZeroMQ server would have produced, with
  `Except.error e` standing for a transport-level failure raised by the
  RPC call itself.
* Wall-clock time in the monitoring loop is logical: the `time.sleep`
  at the end of each loop iteration is the only consumer of time, so the
  elapsed time at the start of iteration `k` is `k * check_interval`.
* Code that `asyncio.run`s a coroutine inside a freshly spawned
  `threading.Thread` and then joins it discards any exception the
  coroutine raises (`Thread.join` does not propagate exceptions); the
  models make this explicit by computing the would-be exception and
  returning it in a component that the caller-visible result ignores.
-/

namespace BCS

/-- Python-style dynamic value: None, bool, number (exact rational in the
model), string, list, or string-keyed dict (association list, first match
wins, as produced by JSON decoding). -/
inductive JVal where
  | pnone : JVal
  | pbool : Bool → JVal
  | pnum : ℚ → JVal
  | pstr : String → JVal
  | plist : List JVal → JVal
  | pdict : List (String × JVal) → JVal

/-- Python exception values, tagged by exception class, carrying the
message string. -/
inductive PyErr where
  | runtimeError (msg : String)
  | valueError (msg : String)
  | typeError (msg : String)
  | keyError (msg : String)
  | indexError (msg : String)
  | attributeError (msg : String)
  | timeoutError (msg : String)
  | notImplementedError (msg : String)
  | connectionError (msg : String)
  deriving DecidableEq, Repr

namespace JVal

/-- Python truthiness of a value. -/
def truthy : JVal → Bool
  | .pnone => false
  | .pbool b => b
  | .pnum q => decide (q ≠ 0)
  | .pstr s => decide (s ≠ "")
  | .plist l => !l.isEmpty
  | .pdict d => !d.isEmpty

/-- First-match lookup in an association list (dict lookup). -/
def lookupKey : List (String × JVal) → String → Option JVal
  | [], _ => none
  | (k, v) :: rest, key => if k = key then some v else lookupKey rest key

/-- Abstract string rendering used for f-string interpolation in error
messages.  Exact Python `str()` output is not reproduced; no claim
depends on it. -/
def jstr : JVal → String
  | .pnone => "None"
  | .pbool true => "True"
  | .pbool false => "False"
  | .pnum q => toString q.num ++ "/" ++ toString q.den
  | .pstr s => s
  | .plist l => "[list of " ++ toString l.length ++ " items]"
  | .pdict d => "[dict of " ++ toString d.length ++ " items]"

/-- Coerce a value to a number the way Python arithmetic does: numbers are
themselves, bools are 0 or 1, everything else is not a number. -/
def pyToNum : JVal → Option ℚ
  | .pnum q => some q
  | .pbool b => some (if b then 1 else 0)
  | _ => none

/-- Equality test of a dynamic value against a string (used for Python's
`in` on lists of names: a string compares equal only to the same string). -/
def isStrEq : JVal → String → Bool
  | .pstr s, k => s == k
  | _, _ => false

end JVal

open JVal

/-- Python's `v.get(key, default)` method call: only dicts have `.get`;
on any other value it raises `AttributeError`. -/
def pyGet (v : JVal) (key : String) (default : JVal) : Except PyErr JVal :=
  match v with
  | .pdict d => .ok ((lookupKey d key).getD default)
  | _ => .error (.attributeError ("object has no attribute get: " ++ key))

/-- Python's `key in v` membership test for the value shapes the bridge
actually receives (dicts and lists); other shapes raise `TypeError`. -/
def pyContains (v : JVal) (key : String) : Except PyErr Bool :=
  match v with
  | .pdict d => .ok (lookupKey d key).isSome
  | .plist l => .ok (l.any (·.isStrEq key))
  | _ => .error (.typeError ("argument of type is not iterable: " ++ key))

/-- Python's `v[key]` subscript with a string key. -/
def pySubsKey (v : JVal) (key : String) : Except PyErr JVal :=
  match v with
  | .pdict d =>
    match lookupKey d key with
    | some x => .ok x
    | none => .error (.keyError key)
  | _ => .error (.typeError ("value is not subscriptable by string: " ++ key))

/-- Python's `v[i]` subscript with integer index `i` (lists index, strings
index into characters, string-keyed dicts raise `KeyError`, the rest raise
`TypeError`). -/
def pyIndex (v : JVal) (i : ℕ) : Except PyErr JVal :=
  match v with
  | .plist l =>
    match l.get? i with
    | some x => .ok x
    | none => .error (.indexError "list index out of range")
  | .pstr s =>
    match s.toList.get? i with
    | some c => .ok (.pstr (String.mk [c]))
    | none => .error (.indexError "string index out of range")
  | .pdict _ => .error (.keyError "integer key")
  | _ => .error (.typeError "value is not subscriptable")

/-- Python's `len(v)` for sized values; `TypeError` otherwise. -/
def pyLen (v : JVal) : Except PyErr ℕ :=
  match v with
  | .plist l => .ok l.length
  | .pdict d => .ok d.length
  | .pstr s => .ok s.length
  | _ => .error (.typeError "object has no len")

/-- Python subtraction `a - b` on dynamic values (numbers and bools only). -/
def pySub (a b : JVal) : Except PyErr JVal :=
  match pyToNum a, pyToNum b with
  | some x, some y => .ok (.pnum (x - y))
  | _, _ => .error (.typeError "unsupported operand types for subtraction")

/-- Python `abs(a)` on dynamic values (numbers and bools only). -/
def pyAbs (a : JVal) : Except PyErr JVal :=
  match pyToNum a with
  | some x => .ok (.pnum |x|)
  | none => .error (.typeError "bad operand type for abs")

/-- Network-visible actions of a `BCSSignal`, in program order: a
connection attempt to the ZeroMQ server, or one domain RPC naming its
command. -/
inductive NetEvent where
  | connectAttempt (host : String) (port : ℕ)
  | rpcCall (command : String) (targets : List String)
  deriving DecidableEq, Repr

namespace BCSSignal

/-- Mutable state of a `BCSSignal` relevant to the claims: the
`_connected` flag (src/bcs_signal.py line 69). -/
structure State where
  connected : Bool
  deriving DecidableEq, Repr

/-- Embeds `BCSSignal.ensure_connected` (src/bcs_signal.py lines 76-90).
The whole check-connect-set sequence runs under `_connection_lock`, so a
single sequential step models any one (serialized) execution of the body.
`connectOk` is the outcome the transport would give this connection
attempt.  On failure the flag stays `false` and a `ConnectionError` is
raised. -/
def ensure_connected (host : String) (port : ℕ) (st : State) (connectOk : Bool) :
    List NetEvent × State × Except PyErr Unit :=
  if st.connected then ([], st, .ok ())
  else if connectOk then ([.connectAttempt host port], ⟨true⟩, .ok ())
  else ([.connectAttempt host port], st,
    .error (.connectionError "Failed to connect to BCS server"))

/-- Embeds the value-extraction tail of the analog-input branch of
`BCSSignal.get` (src/bcs_signal.py lines 150-154): return
`response['data'][0]` when the data list is non-empty, else the
no-data error. -/
def get_ai_extract (originalName : String) (response : JVal) : Except PyErr JVal :=
  match pyContains response "data" with
  | .error e => .error e
  | .ok hasData =>
    if hasData then
      match pySubsKey response "data" with
      | .error e => .error e
      | .ok d =>
        match pyLen d with
        | .error e => .error e
        | .ok n =>
          if 0 < n then pyIndex d 0
          else .error (.valueError ("No data returned for AI: " ++ originalName))
    else .error (.valueError ("No data returned for AI: " ++ originalName))

/-- Embeds the not-found check of the analog-input branch of
`BCSSignal.get` (src/bcs_signal.py lines 146-148), falling through to
the extraction tail. -/
def get_ai_nf (originalName : String) (response : JVal) : Except PyErr JVal :=
  match pyContains response "not_found" with
  | .error e => .error e
  | .ok hasNF =>
    if hasNF then
      match pySubsKey response "not_found" with
      | .error e => .error e
      | .ok nf =>
        if nf.truthy then .error (.valueError ("AI channel not found: " ++ originalName))
        else get_ai_extract originalName response
    else get_ai_extract originalName response

/-- Embeds the analog-input branch of `BCSSignal.get`
(src/bcs_signal.py lines 137-154), as a function of the `get_freerun`
server reply: success check, then not-found check, then extraction. -/
def get_ai (originalName : String) (response : JVal) : Except PyErr JVal :=
  match pyGet response "success" (.pbool false) with
  | .error e => .error e
  | .ok success =>
    if !success.truthy then
      match pyGet response "error_description" (.pstr "Unknown error") with
      | .error e => .error e
      | .ok errMsg => .error (.runtimeError ("Failed to get AI data: " ++ jstr errMsg))
    else get_ai_nf originalName response

/-- Embeds the value-extraction tail of the motor branch of
`BCSSignal.get` (src/bcs_signal.py lines 170-174):
`response['data'][0].get('position', 0)` when the data list is
non-empty. -/
def get_motor_extract (originalName : String) (response : JVal) : Except PyErr JVal :=
  match pyContains response "data" with
  | .error e => .error e
  | .ok hasData =>
    if hasData then
      match pySubsKey response "data" with
      | .error e => .error e
      | .ok d =>
        match pyLen d with
        | .error e => .error e
        | .ok n =>
          if 0 < n then
            match pyIndex d 0 with
            | .error e => .error e
            | .ok motorData => pyGet motorData "position" (.pnum 0)
          else .error (.valueError ("No data returned for motor: " ++ originalName))
    else .error (.valueError ("No data returned for motor: " ++ originalName))

/-- Embeds the not-found check of the motor branch of `BCSSignal.get`
(src/bcs_signal.py lines 166-167), falling through to the extraction
tail. -/
def get_motor_nf (originalName : String) (response : JVal) : Except PyErr JVal :=
  match pyContains response "not_found" with
  | .error e => .error e
  | .ok hasNF =>
    if hasNF then
      match pySubsKey response "not_found" with
      | .error e => .error e
      | .ok nf =>
        if nf.truthy then .error (.valueError ("Motor not found: " ++ originalName))
        else get_motor_extract originalName response
    else get_motor_extract originalName response

/-- Embeds the motor branch of `BCSSignal.get`
(src/bcs_signal.py lines 156-174), as a function of the `get_motor`
server reply. -/
def get_motor (originalName : String) (response : JVal) : Except PyErr JVal :=
  match pyGet response "success" (.pbool false) with
  | .error e => .error e
  | .ok success =>
    if !success.truthy then
      match pyGet response "error_description" (.pstr "Unknown error") with
      | .error e => .error e
      | .ok errMsg => .error (.runtimeError ("Failed to get motor data: " ++ jstr errMsg))
    else get_motor_nf originalName response

/-- Embeds the item-type dispatch of `BCSSignal.get`
(src/bcs_signal.py lines 114-181); `response` is the reply to whichever
RPC the selected branch issues.  The outer try/except re-raises every
exception unchanged (line 181), so it is the identity here. -/
def get (itemType originalName : String) (response : JVal) : Except PyErr JVal :=
  if itemType = "ai" then get_ai originalName response
  else if itemType = "motor" then get_motor originalName response
  else .error (.valueError ("Unsupported item type: " ++ itemType))

/-- Embeds the timed-out check of the motor branch of `BCSSignal.set`
(src/bcs_signal.py lines 246-251), which on pass returns the response. -/
def set_motor_to (originalName : String) (response : JVal) : Except PyErr JVal :=
  match pyContains response "timed_out" with
  | .error e => .error e
  | .ok hasTO =>
    if hasTO then
      match pySubsKey response "timed_out" with
      | .error e => .error e
      | .ok tv =>
        match pyLen tv with
        | .error e => .error e
        | .ok n =>
          if 0 < n then .error (.timeoutError ("Motor move timed out: " ++ originalName))
          else .ok response
    else .ok response

/-- Embeds the not-found check of the motor branch of `BCSSignal.set`
(src/bcs_signal.py lines 242-244), falling through to the timed-out
check. -/
def set_motor_nf (originalName : String) (response : JVal) : Except PyErr JVal :=
  match pyContains response "not_found" with
  | .error e => .error e
  | .ok hasNF =>
    if hasNF then
      match pySubsKey response "not_found" with
      | .error e => .error e
      | .ok nf =>
        match pyLen nf with
        | .error e => .error e
        | .ok n =>
          if 0 < n then .error (.valueError ("Motor not found: " ++ originalName))
          else set_motor_to originalName response
    else set_motor_to originalName response

/-- Embeds the reply checks of the motor branch of `BCSSignal.set`
(src/bcs_signal.py lines 235-251): success check, not-found check by
list length, timed-out check, then return the response. -/
def set_motor_checks (originalName : String) (response : JVal) : Except PyErr JVal :=
  match pyGet response "success" (.pbool false) with
  | .error e => .error e
  | .ok success =>
    if !success.truthy then
      match pyGet response "error_description" (.pstr "Unknown error") with
      | .error e => .error e
      | .ok errMsg => .error (.runtimeError ("Failed to move motor: " ++ jstr errMsg))
    else set_motor_nf originalName response

/-- Embeds `BCSSignal.set` (src/bcs_signal.py lines 203-262): it first
awaits `ensure_connected` (line 229), then dispatches on `itemType`.
`response` is the reply the `move_motor` RPC would receive if issued.
Returns the network events in program order, the new state, and the
result.  The outer try/except re-raises unchanged (line 262). -/
def set (itemType originalName host : String) (port : ℕ) (st : State)
    (connectOk : Bool) (response : JVal) : List NetEvent × State × Except PyErr JVal :=
  let (evs, st1, conn) := ensure_connected host port st connectOk
  match conn with
  | .error e => (evs, st1, .error e)
  | .ok () =>
    if itemType = "motor" then
      (evs ++ [.rpcCall "move_motor" [originalName]], st1,
        set_motor_checks originalName response)
    else if itemType = "ai" then
      (evs, st1, .error (.notImplementedError
        ("Setting values for AI channels is not supported: " ++ originalName)))
    else
      (evs, st1, .error (.valueError
        ("Unsupported item type for setting values: " ++ itemType)))

/-- Embeds `BCSSignal.read` (src/bcs_signal.py lines 264-287): wraps
`get()` and pairs the value with the locally generated capture-time
timestamp `ts` (the value of `time.time()` at line 280). -/
def read (itemType name originalName : String) (response : JVal) (ts : ℚ) :
    Except PyErr JVal :=
  match get itemType originalName response with
  | .error e => .error e
  | .ok v => .ok (.pdict [(name, .pdict [("value", v), ("timestamp", .pnum ts)])])

end BCSSignal

/-- Settlement of an Ophyd `Status` handle: `set_finished()` or
`set_exception(e)`. -/
inductive Settle where
  | finished
  | exn (e : PyErr)
  deriving DecidableEq, Repr

/-- Network- and handle-visible actions of a `BCSMotor`, in program order. -/
inductive MEvent where
  | connectAttempt
  | moveCmd (motors : List String) (goals : List ℚ)
  | statusPoll (motorName : String)
  | stopCmd (motors : List String)
  | settleDone
  | settleErr (e : PyErr)
  deriving DecidableEq, Repr

namespace BCSMotor

/-- Mutable state of a `BCSMotor` relevant to the claims
(src/bcsophyd/zmq/bcs_motor.py lines 49-62): the `_connected` flag, the
cached `_position`, the server-reported `moveComplete` flag (a dynamic
value: `update()` stores whatever the reply carried), the local
`isMoving` flag, and the settlement of the pending move's `Status`
handle (`none` while pending). -/
structure State where
  connected : Bool
  position : JVal
  moveComplete : JVal
  isMoving : Bool
  moveStatus : Option Settle

/-- Embeds `BCSMotor._ensure_connected` (bcs_motor.py lines 70-76) as one
sequential execution: unlike the signal's version there is no lock around
the check (the interleaving consequences are modelled separately below).
`connectOk` is the outcome the transport would give the attempt. -/
def ensure_connected (st : State) (connectOk : Bool) :
    List MEvent × State × Except PyErr Unit :=
  if st.connected then ([], st, .ok ())
  else if connectOk then ([.connectAttempt], { st with connected := true }, .ok ())
  else ([.connectAttempt], st, .error (.connectionError "connect failed"))

/-- Embeds `BCSMotor.parse_get_motor_full` (bcs_motor.py lines 443-458). -/
def parse_get_motor_full (inputData : JVal) : Except PyErr JVal :=
  match pyGet inputData "success" (.pbool false) with
  | .error e => .error e
  | .ok success =>
    if !success.truthy then
      match pyGet inputData "error_description" (.pstr "Unknown error") with
      | .error e => .error e
      | .ok errMsg => .error (.valueError ("Operation not successful: " ++ jstr errMsg))
    else
      match pyGet inputData "data" .pnone with
      | .error e => .error e
      | .ok data =>
        if !data.truthy then .error (.valueError "No data found in the response.")
        else .ok data

/-- Embeds `BCSMotor.zmq_get_motor_full` (bcs_motor.py lines 344-368): the
coroutine `_zmq_get_motor_full_async` (connect, `get_motor_full` RPC,
parse; lines 371-375) runs in a fresh worker thread; `raw` is the
transport-level outcome of that RPC (`Except.error` = the RPC or the
connect raised).  Any exception raised in the worker thread is lost at
`thread.join()`, leaving the result container empty, so the caller
uniformly sees `RuntimeError` (line 365); the same branch fires if the
parsed data is falsy. -/
def zmq_get_motor_full (motorName : String) (raw : Except PyErr JVal) :
    Except PyErr JVal :=
  match raw with
  | .error _ => .error (.runtimeError ("Failed to get motor data for " ++ motorName))
  | .ok response =>
    match parse_get_motor_full response with
    | .error _ => .error (.runtimeError ("Failed to get motor data for " ++ motorName))
    | .ok data =>
      if data.truthy then .ok data
      else .error (.runtimeError ("Failed to get motor data for " ++ motorName))

/-- Embeds `BCSMotor.update` (bcs_motor.py lines 284-305).  Returns the
state after the assignments that executed before any exception, together
with the exception the `except` clause caught (`none` on success): the
body mutates `moveComplete` (line 301) and then `_position` (line 302)
in that order, so a failure between the two would leave only the first
updated.  `update` never re-raises (lines 304-305). -/
def update (originalName : String) (st : State) (raw : Except PyErr JVal) :
    State × Option PyErr :=
  match zmq_get_motor_full originalName raw with
  | .error e => (st, some e)
  | .ok listResult =>
    match pyIndex listResult 0 with
    | .error e => (st, some e)
    | .ok fullDictionary =>
      match pyGet fullDictionary "Motor State" (.pdict []) with
      | .error e => (st, some e)
      | .ok motorState =>
        match pyGet motorState "Move Complete" (.pbool false) with
        | .error e => (st, some e)
        | .ok mc =>
          let st1 := { st with moveComplete := mc }
          match pyGet fullDictionary "Raw Motor Position" st1.position with
          | .error e => (st1, some e)
          | .ok p => ({ st1 with position := p }, none)

/-- The computation `abs(self._position - target_position)` of
bcs_motor.py line 204: subtraction then absolute value, raising
`TypeError` when the cached position is not numeric. -/
def pyAbsSub (pos : JVal) (target : ℚ) : Except PyErr JVal :=
  match pySub pos (.pnum target) with
  | .error e => .error e
  | .ok d => pyAbs d

/-- Python truthiness of the `timeout` argument of `monitor_motor_status`
(the guard `if timeout and ...` on bcs_motor.py line 196): `None` and
`0` are falsy, so they disable the deadline check. -/
def timeoutTruthy : Option ℚ → Bool
  | none => false
  | some q => decide (q ≠ 0)

/-- Embeds the loop of `BCSMotor.monitor_motor_status`
(bcs_motor.py lines 175-221) from iteration `k` on, for `fuel` more
iterations.  `tr j` is the transport-level outcome of the status RPC of
iteration `j`.  Time is logical: `time.sleep(check_interval)` at the end
of each iteration is the only consumer of time, so elapsed time at the
top of iteration `k` is `k * iv`.  Per iteration, in code order: the
deadline check (lines 196-199), `update()` (line 202, emitting one
status poll), the `diff` computation (line 204; a `TypeError` there is
caught by the loop's own handler, lines 217-219), then the
`moveComplete` check (lines 209-212).  Returns the events in order, the
final motor state, and the settlement with its iteration index (`none`
if the loop is still running when `fuel` runs out). -/
def monitor_motor_status (originalName : String) (target : ℚ) (t? : Option ℚ)
    (iv : ℚ) (tr : ℕ → Except PyErr JVal) :
    State → ℕ → ℕ → List MEvent × State × Option (ℕ × Settle)
  | st, _, 0 => ([], st, none)
  | st, k, fuel + 1 =>
    if timeoutTruthy t? && decide ((k : ℚ) * iv > t?.getD 0) then
      let e := PyErr.timeoutError "BCSMotor - monitor_motor_status() - Timeout."
      ([.settleErr e], st, some (k, .exn e))
    else
      let st' := (update originalName st (tr k)).1
      match pyAbsSub st'.position target with
      | .error e =>
        ([.statusPoll originalName, .settleErr e], st', some (k, .exn e))
      | .ok _ =>
        if st'.moveComplete.truthy then
          ([.statusPoll originalName, .settleDone], st', some (k, .finished))
        else
          let (evs, stF, res) :=
            monitor_motor_status originalName target t? iv tr st' (k + 1) fuel
          (.statusPoll originalName :: evs, stF, res)

/-- Embeds the timed-out check of `BCSMotor._zmq_move_motor_async`
(bcs_motor.py lines 407-409). -/
def zmq_move_motor_to (response : JVal) : Except PyErr Unit :=
  match pyContains response "timed_out" with
  | .error e => .error e
  | .ok hasTO =>
    if hasTO then
      match pySubsKey response "timed_out" with
      | .error e => .error e
      | .ok tv =>
        if tv.truthy then .error (.timeoutError ("Motors timed out: " ++ jstr tv))
        else .ok ()
    else .ok ()

/-- Embeds the not-found check of `BCSMotor._zmq_move_motor_async`
(bcs_motor.py lines 403-405), falling through to the timed-out check. -/
def zmq_move_motor_nf (response : JVal) : Except PyErr Unit :=
  match pyContains response "not_found" with
  | .error e => .error e
  | .ok hasNF =>
    if hasNF then
      match pySubsKey response "not_found" with
      | .error e => .error e
      | .ok nf =>
        if nf.truthy then .error (.valueError ("Motors not found: " ++ jstr nf))
        else zmq_move_motor_to response
    else zmq_move_motor_to response

/-- Embeds `BCSMotor._zmq_move_motor_async` (bcs_motor.py lines 394-409):
the reply checks of the move-command RPC.  `raw` is the transport-level
outcome of that RPC. -/
def zmq_move_motor_async (raw : Except PyErr JVal) : Except PyErr Unit :=
  match raw with
  | .error e => .error e
  | .ok response =>
    match pyGet response "success" (.pbool false) with
    | .error e => .error e
    | .ok success =>
      if !success.truthy then
        match pyGet response "error_description" (.pstr "Unknown error") with
        | .error e => .error e
        | .ok errMsg => .error (.runtimeError ("Failed to move motor: " ++ jstr errMsg))
      else zmq_move_motor_nf response

/-- Embeds `BCSMotor.move` (bcs_motor.py lines 135-173) with the device
already connected: sets `moveComplete = False` and `isMoving = True`
(lines 146-147), calls `zmq_move_motor` (line 151) — whose worker thread
runs `_zmq_move_motor_async` and whose exception, if any, is lost at
`thread.join()` (lines 383-389), which is why the checks' outcome is
computed and then discarded here — then creates the `Status` handle and
runs the monitoring loop.  `moveRaw` is the transport-level outcome of
the move-command RPC; `tr` the outcomes of the status polls. -/
def move (originalName : String) (newPosition : ℚ) (t? : Option ℚ) (iv : ℚ)
    (st : State) (moveRaw : Except PyErr JVal) (tr : ℕ → Except PyErr JVal)
    (fuel : ℕ) : List MEvent × State × Option (ℕ × Settle) :=
  let st1 := { st with moveComplete := JVal.pbool false, isMoving := true }
  let _discardedThreadError := zmq_move_motor_async moveRaw
  let (evs, st2, res) :=
    monitor_motor_status originalName newPosition t? iv tr st1 0 fuel
  (MEvent.moveCmd [originalName] [newPosition] :: evs, st2, res)

/-- Embeds `BCSMotor._zmq_stop_motor_async` reply checks
(bcs_motor.py lines 429-436). -/
def zmq_stop_motor_async (raw : Except PyErr JVal) : Except PyErr Unit :=
  match raw with
  | .error e => .error e
  | .ok response =>
    match pyGet response "success" (.pbool false) with
    | .error e => .error e
    | .ok success =>
      if !success.truthy then
        match pyGet response "error_description" (.pstr "Unknown error") with
        | .error e => .error e
        | .ok errMsg => .error (.runtimeError ("Failed to stop motor: " ++ jstr errMsg))
      else .ok ()

/-- Embeds `BCSMotor.stop` (bcs_motor.py lines 270-280): it calls
`zmq_stop_motor([originalName])`, whose worker thread connects and
issues exactly one stop-command RPC; any exception of that coroutine is
lost at `thread.join()` (lines 418-424), so `stop` itself never raises —
the would-be exception is returned in the third component, which the
caller-visible behaviour ignores.  After the join, `isMoving = False`
(line 278) unconditionally.  `stop` never touches the pending move's
`Status` handle.  `stopRaw` is the transport-level outcome of the stop
RPC if issued. -/
def stop (originalName : String) (st : State) (connectOk : Bool)
    (stopRaw : Except PyErr JVal) : List MEvent × State × Option PyErr :=
  let (cEvs, connSt, connRes) := ensure_connected st connectOk
  match connRes with
  | .error e => (cEvs, { connSt with isMoving := false }, some e)
  | .ok () =>
    let swallowed := match zmq_stop_motor_async stopRaw with
      | .error e => some e
      | .ok () => none
    (cEvs ++ [.stopCmd [originalName]], { connSt with isMoving := false }, swallowed)

/-- Embeds `BCSMotor.describe` (bcs_motor.py lines 105-121). -/
def describe (name units : String) : JVal :=
  .pdict [(name, .pdict
    [("source", .pstr "BCSMotor"), ("dtype", .pstr "number"),
     ("shape", .plist []), ("units", .pstr units)])]

/-- Embeds `BCSMotor.zmq_get_motor_full_async` (bcs_motor.py lines
312-341): success check on the reply then `parse_get_motor_full`.
Unlike the threaded sync wrapper, exceptions propagate to the caller. -/
def zmq_get_motor_full_async (raw : Except PyErr JVal) : Except PyErr JVal :=
  match raw with
  | .error e => .error e
  | .ok response =>
    match pyGet response "success" (.pbool false) with
    | .error e => .error e
    | .ok success =>
      if !success.truthy then
        match pyGet response "error_description" (.pstr "Unknown error") with
        | .error e => .error e
        | .ok errMsg => .error (.runtimeError ("Failed to get motor data: " ++ jstr errMsg))
      else parse_get_motor_full response

/-- Embeds `BCSMotor.read` (bcs_motor.py lines 229-262): queries the full
motor record, extracts `queryResult[0]['Raw Motor Position']` (plain
subscripts, lines 245), caches it in `_position` (line 248) and wraps it
with the locally generated capture-time timestamp `ts` (the value of
`datetime.now().isoformat()` at line 240). -/
def read (name : String) (st : State) (raw : Except PyErr JVal) (ts : String) :
    State × Except PyErr JVal :=
  match zmq_get_motor_full_async raw with
  | .error e => (st, .error e)
  | .ok queryResult =>
    match pyIndex queryResult 0 with
    | .error e => (st, .error e)
    | .ok first =>
      match pySubsKey first "Raw Motor Position" with
      | .error e => (st, .error e)
      | .ok pos =>
        ({ st with position := pos },
         .ok (.pdict [(name, .pdict [("value", pos), ("timestamp", .pstr ts)])]))

end BCSMotor

/-!
Interleaving models of the two `ensure_connected` implementations, for the
idempotency claim.  Two first-caller threads execute the body
concurrently; a schedule is a list of thread ids, each entry letting that
thread execute its next atomic step (a step by a finished or lock-blocked
thread is a no-op).  In the signal model the outcome of each thread's
connection attempt is an oracle `cok : Fin 2 → Bool`, so the failure
path of `connect` (src/bcs_signal.py lines 88-90: exception logged and
re-raised as `ConnectionError`, the `with` block releasing the lock on
unwind, `_connected` left `False`) is represented: a failed attempt
skips the flag write and goes straight to the lock release.
-/

namespace Conc

/-- Saturating increment on the attempt counter of the motor model. -/
def bump : Fin 3 → Fin 3
  | 0 => 1
  | 1 => 2
  | 2 => 2

/-- Shared state for two threads running `BCSSignal.ensure_connected`
(src/bcs_signal.py lines 76-90).  Program counters: 0 = about to acquire
`_connection_lock`; 1 = holding the lock, about to test `_connected`;
2 = about to call `connect`; 3 = attempt succeeded, about to set
`_connected = True`; 4 = about to release the lock (normally or while
unwinding the `ConnectionError` of a failed attempt); 5 = done (normally
or with the error).  `flag` is `_connected`; `lockHeld` the lock owner;
`att0`/`att1` record whether each thread has made its connection
attempt. -/
structure SigCState where
  pc0 : Fin 6
  pc1 : Fin 6
  flag : Bool
  lockHeld : Option (Fin 2)
  att0 : Bool
  att1 : Bool
  deriving DecidableEq, Fintype

/-- Total number of connection attempts made so far. -/
def attempts (s : SigCState) : ℕ :=
  s.att0.toNat + s.att1.toNat

/-- One atomic step of thread `t` of the signal model: acquire (blocks
while the other thread holds the lock), test the flag (skipping the
connect when already set), connect — recording the attempt and following
the success path to the flag write when `cok t`, or the exception path
straight to the lock release when the attempt fails — set the flag,
release. -/
def sigStep (cok : Fin 2 → Bool) (t : Fin 2) (s : SigCState) : SigCState :=
  let pc := if t = 0 then s.pc0 else s.pc1
  let setPc : SigCState → Fin 6 → SigCState := fun s' v =>
    if t = 0 then { s' with pc0 := v } else { s' with pc1 := v }
  let setAtt : SigCState → SigCState := fun s' =>
    if t = 0 then { s' with att0 := true } else { s' with att1 := true }
  if pc = 0 then
    if s.lockHeld = none then setPc { s with lockHeld := some t } 1 else s
  else if pc = 1 then
    if s.flag then setPc s 4 else setPc s 2
  else if pc = 2 then
    if cok t then setPc (setAtt s) 3 else setPc (setAtt s) 4
  else if pc = 3 then
    setPc { s with flag := true } 4
  else if pc = 4 then
    setPc { s with lockHeld := none } 5
  else s

/-- Run the signal model under a schedule. -/
def sigRun (cok : Fin 2 → Bool) : List (Fin 2) → SigCState → SigCState
  | [], s => s
  | t :: rest, s => sigRun cok rest (sigStep cok t s)

/-- Initial state: two first callers, not yet connected. -/
def sigInit : SigCState := ⟨0, 0, false, none, false, false⟩

/-- Lock part of the signal invariant: lock ownership matches the
program counters of the critical section, and a thread between the flag
test and the flag write can only exist while the flag is down. -/
def SigInvLock (s : SigCState) : Prop :=
  (s.lockHeld = some 0 ↔ (s.pc0 = 1 ∨ s.pc0 = 2 ∨ s.pc0 = 3 ∨ s.pc0 = 4)) ∧
  (s.lockHeld = some 1 ↔ (s.pc1 = 1 ∨ s.pc1 = 2 ∨ s.pc1 = 3 ∨ s.pc1 = 4)) ∧
  ((s.pc0 = 2 ∨ s.pc0 = 3 ∨ s.pc1 = 2 ∨ s.pc1 = 3) → s.flag = false)

/-- Attempt part of the signal invariant: a thread at the flag write got
there through its own successful attempt, a thread past the critical
section has seen the flag up or made a failed attempt, and an attempt is
recorded exactly from the post-connect program points onward. -/
def SigInvAtt (cok : Fin 2 → Bool) (s : SigCState) : Prop :=
  (s.pc0 = 3 → s.att0 = true ∧ cok 0 = true) ∧
  (s.pc1 = 3 → s.att1 = true ∧ cok 1 = true) ∧
  ((s.pc0 = 4 ∨ s.pc0 = 5) → s.flag = true ∨ (s.att0 = true ∧ cok 0 = false)) ∧
  ((s.pc1 = 4 ∨ s.pc1 = 5) → s.flag = true ∨ (s.att1 = true ∧ cok 1 = false)) ∧
  (s.att0 = true → s.pc0 = 3 ∨ s.pc0 = 4 ∨ s.pc0 = 5) ∧
  (s.att1 = true → s.pc1 = 3 ∨ s.pc1 = 4 ∨ s.pc1 = 5)

/-- Flag part of the signal invariant: the flag is only ever set by a
successful attempt, and two successful attempts never both happen. -/
def SigInvFlag (cok : Fin 2 → Bool) (s : SigCState) : Prop :=
  (s.flag = true → (s.att0 = true ∧ cok 0 = true) ∨ (s.att1 = true ∧ cok 1 = true)) ∧
  ¬(s.att0 = true ∧ cok 0 = true ∧ s.att1 = true ∧ cok 1 = true)

/-- Inductive invariant of the signal model. -/
def SigInv (cok : Fin 2 → Bool) (s : SigCState) : Prop :=
  SigInvLock s ∧ SigInvAtt cok s ∧ SigInvFlag cok s

instance : DecidablePred SigInvLock := fun s => by
  unfold SigInvLock; infer_instance

instance (cok : Fin 2 → Bool) : DecidablePred (SigInvAtt cok) := fun s => by
  unfold SigInvAtt; infer_instance

instance (cok : Fin 2 → Bool) : DecidablePred (SigInvFlag cok) := fun s => by
  unfold SigInvFlag; infer_instance

instance (cok : Fin 2 → Bool) : DecidablePred (SigInv cok) := fun s => by
  unfold SigInv; infer_instance

/-- Connection-outcome oracle built from the two threads' outcomes, used
to quantify over oracles by quantifying over two booleans. -/
def cokOf (c0 c1 : Bool) : Fin 2 → Bool :=
  fun i => if i = 0 then c0 else c1

lemma cokOf_eta (cok : Fin 2 → Bool) : cokOf (cok 0) (cok 1) = cok := by
  funext i
  fin_cases i <;> rfl

lemma sigInv_init_aux : ∀ c0 c1 : Bool, SigInv (cokOf c0 c1) sigInit := by
  decide

lemma sigInv_init (cok : Fin 2 → Bool) : SigInv cok sigInit := by
  rw [← cokOf_eta cok]
  exact sigInv_init_aux (cok 0) (cok 1)

set_option maxRecDepth 100000 in
lemma sigInv_step_aux : ∀ (c0 c1 : Bool) (t : Fin 2) (p0 p1 : Fin 6) (f : Bool)
    (lk : Option (Fin 2)) (a0 a1 : Bool),
    SigInv (cokOf c0 c1) ⟨p0, p1, f, lk, a0, a1⟩ →
    SigInv (cokOf c0 c1) (sigStep (cokOf c0 c1) t ⟨p0, p1, f, lk, a0, a1⟩) := by
  decide

lemma sigInv_step (cok : Fin 2 → Bool) (s : SigCState) (t : Fin 2)
    (h : SigInv cok s) : SigInv cok (sigStep cok t s) := by
  have haux :=
    sigInv_step_aux (cok 0) (cok 1) t s.pc0 s.pc1 s.flag s.lockHeld s.att0 s.att1
  rw [cokOf_eta cok] at haux
  exact haux h

lemma sigInv_run (cok : Fin 2 → Bool) (sched : List (Fin 2)) (s : SigCState)
    (h : SigInv cok s) : SigInv cok (sigRun cok sched s) := by
  induction sched generalizing s with
  | nil => exact h
  | cons t rest ih => exact ih _ (sigInv_step cok s t h)

set_option maxRecDepth 100000 in
lemma sig_step_stable_after_flag_aux : ∀ (c0 c1 : Bool) (t : Fin 2) (p0 p1 : Fin 6)
    (f : Bool) (lk : Option (Fin 2)) (a0 a1 : Bool),
    SigInv (cokOf c0 c1) ⟨p0, p1, f, lk, a0, a1⟩ → f = true →
    (sigStep (cokOf c0 c1) t ⟨p0, p1, f, lk, a0, a1⟩).att0 = a0 ∧
    (sigStep (cokOf c0 c1) t ⟨p0, p1, f, lk, a0, a1⟩).att1 = a1 ∧
    (sigStep (cokOf c0 c1) t ⟨p0, p1, f, lk, a0, a1⟩).flag = true := by
  decide

lemma sig_step_stable_after_flag (cok : Fin 2 → Bool) (t : Fin 2) (s : SigCState)
    (h : SigInv cok s) (hf : s.flag = true) :
    (sigStep cok t s).att0 = s.att0 ∧ (sigStep cok t s).att1 = s.att1 ∧
      (sigStep cok t s).flag = true := by
  have haux := sig_step_stable_after_flag_aux (cok 0) (cok 1) t s.pc0 s.pc1 s.flag
    s.lockHeld s.att0 s.att1
  rw [cokOf_eta cok] at haux
  exact haux h hf

/-- Once the `_connected` flag is up, running the model further makes no
additional connection attempts and the flag stays up. -/
lemma sig_run_stable_after_flag (cok : Fin 2 → Bool) :
    ∀ (sched : List (Fin 2)) (s : SigCState), SigInv cok s → s.flag = true →
      attempts (sigRun cok sched s) = attempts s ∧ (sigRun cok sched s).flag = true := by
  intro sched
  induction sched with
  | nil => intro s _ hf; exact ⟨rfl, hf⟩
  | cons t rest ih =>
    intro s hinv hf
    obtain ⟨ha0, ha1, hf'⟩ := sig_step_stable_after_flag cok t s hinv hf
    obtain ⟨hrest, hfr⟩ := ih (sigStep cok t s) (sigInv_step cok s t hinv) hf'
    simp only [sigRun]
    refine ⟨?_, hfr⟩
    rw [hrest]
    simp [attempts, ha0, ha1]

/-- Shared state for two threads running `BCSMotor._ensure_connected`
(bcs_motor.py lines 70-76), which has no lock.  Program counters:
0 = about to test `_connected`; 1 = about to call `connect`; 2 = about
to set `_connected = True`; 3 = done. -/
structure MotCState where
  pc0 : Fin 4
  pc1 : Fin 4
  flag : Bool
  connects : Fin 3
  deriving DecidableEq, Fintype

/-- One atomic step of thread `t` of the motor model: test the flag
(no lock taken first), connect, set the flag. -/
def motStep (t : Fin 2) (s : MotCState) : MotCState :=
  let pc := if t = 0 then s.pc0 else s.pc1
  let setPc : MotCState → Fin 4 → MotCState := fun s' v =>
    if t = 0 then { s' with pc0 := v } else { s' with pc1 := v }
  if pc = 0 then
    if s.flag then setPc s 3 else setPc s 1
  else if pc = 1 then
    setPc { s with connects := bump s.connects } 2
  else if pc = 2 then
    setPc { s with flag := true } 3
  else s

/-- Run the motor model under a schedule. -/
def motRun : List (Fin 2) → MotCState → MotCState
  | [], s => s
  | t :: rest, s => motRun rest (motStep t s)

/-- Initial state: two first callers, not yet connected. -/
def motInit : MotCState := ⟨0, 0, false, 0⟩

end Conc

/-- Recognizer for stop-command RPC events. -/
def isStopCmd : MEvent → Bool
  | .stopCmd _ => true
  | _ => false

/-- Shape required by the orchestration framework for `read()` results:
a mapping from the device name to a record of value and timestamp. -/
def specReadShape (name : String) (value ts : JVal) : JVal :=
  .pdict [(name, .pdict [("value", value), ("timestamp", ts)])]

/-- Shape required by the orchestration framework for `describe()`: a
mapping from the device name to a record of source, dtype, shape and
units. -/
def specDescribeShape (name source dtype : String) (shp : List JVal) (units : String) : JVal :=
  .pdict [(name, .pdict [("source", .pstr source), ("dtype", .pstr dtype),
    ("shape", .plist shp), ("units", .pstr units)])]

/-- Recognizer for handle-settlement events (`set_finished` or
`set_exception`). -/
def isSettleEvent : MEvent → Bool
  | .settleDone => true
  | .settleErr _ => true
  | _ => false

/-- The event a given settlement emits on the `Status` handle. -/
def settleEventOf : Settle → MEvent
  | .finished => .settleDone
  | .exn e => .settleErr e

/-- State hygiene for monitoring-loop runs: the cached position is
numeric (so the `diff` computation of bcs_motor.py line 204 cannot
raise) and the server-reported move-complete flag is falsy. -/
def goodState (st : BCSMotor.State) : Prop :=
  (JVal.pyToNum st.position).isSome = true ∧ st.moveComplete.truthy = false

open JVal

section MonitorLemmas

/-- One monitoring-loop iteration whose deadline check fires: the handle
is settled with the timeout error and the loop stops. -/
lemma monitor_succ_timeout (nm : String) (target : ℚ) (t? : Option ℚ) (iv : ℚ)
    (tr : ℕ → Except PyErr JVal) (st : BCSMotor.State) (k fuel : ℕ)
    (hcond : (BCSMotor.timeoutTruthy t? && decide ((k : ℚ) * iv > t?.getD 0)) = true) :
    BCSMotor.monitor_motor_status nm target t? iv tr st k (fuel + 1) =
      ([.settleErr (.timeoutError "BCSMotor - monitor_motor_status() - Timeout.")], st,
        some (k, .exn (.timeoutError "BCSMotor - monitor_motor_status() - Timeout."))) := by
  rw [BCSMotor.monitor_motor_status]
  simp [hcond]

/-- One monitoring-loop iteration that neither times out, nor errors in
the diff computation, nor observes completion: one status poll, then the
loop continues on the updated state. -/
lemma monitor_succ_continue (nm : String) (target : ℚ) (t? : Option ℚ) (iv : ℚ)
    (tr : ℕ → Except PyErr JVal) (st : BCSMotor.State) (k fuel : ℕ)
    (hcond : (BCSMotor.timeoutTruthy t? && decide ((k : ℚ) * iv > t?.getD 0)) = false)
    (q : JVal)
    (hq : BCSMotor.pyAbsSub ((BCSMotor.update nm st (tr k)).1).position target = .ok q)
    (hmc : ((BCSMotor.update nm st (tr k)).1).moveComplete.truthy = false) :
    BCSMotor.monitor_motor_status nm target t? iv tr st k (fuel + 1) =
      (MEvent.statusPoll nm ::
        (BCSMotor.monitor_motor_status nm target t? iv tr
          (BCSMotor.update nm st (tr k)).1 (k + 1) fuel).1,
       (BCSMotor.monitor_motor_status nm target t? iv tr
          (BCSMotor.update nm st (tr k)).1 (k + 1) fuel).2) := by
  rw [BCSMotor.monitor_motor_status]
  simp [hcond, hq, hmc]

/-- One monitoring-loop iteration that observes a truthy move-complete
flag: one status poll, then the handle is settled as finished. -/
lemma monitor_succ_done (nm : String) (target : ℚ) (t? : Option ℚ) (iv : ℚ)
    (tr : ℕ → Except PyErr JVal) (st : BCSMotor.State) (k fuel : ℕ)
    (hcond : (BCSMotor.timeoutTruthy t? && decide ((k : ℚ) * iv > t?.getD 0)) = false)
    (q : JVal)
    (hq : BCSMotor.pyAbsSub ((BCSMotor.update nm st (tr k)).1).position target = .ok q)
    (hmc : ((BCSMotor.update nm st (tr k)).1).moveComplete.truthy = true) :
    BCSMotor.monitor_motor_status nm target t? iv tr st k (fuel + 1) =
      ([.statusPoll nm, .settleDone], (BCSMotor.update nm st (tr k)).1,
        some (k, .finished)) := by
  rw [BCSMotor.monitor_motor_status]
  simp [hcond, hq, hmc]

/-- One monitoring-loop iteration whose diff computation raises (a
non-numeric cached position): one status poll, then the loop's own
handler settles the handle with that error. -/
lemma monitor_succ_differr (nm : String) (target : ℚ) (t? : Option ℚ) (iv : ℚ)
    (tr : ℕ → Except PyErr JVal) (st : BCSMotor.State) (k fuel : ℕ) (e : PyErr)
    (hcond : (BCSMotor.timeoutTruthy t? && decide ((k : ℚ) * iv > t?.getD 0)) = false)
    (hq : BCSMotor.pyAbsSub ((BCSMotor.update nm st (tr k)).1).position target = .error e) :
    BCSMotor.monitor_motor_status nm target t? iv tr st k (fuel + 1) =
      ([.statusPoll nm, .settleErr e], (BCSMotor.update nm st (tr k)).1,
        some (k, .exn e)) := by
  rw [BCSMotor.monitor_motor_status]
  simp [hcond, hq]

/-- On a good state the diff computation of the monitoring loop
succeeds. -/
lemma goodState_absSub (st : BCSMotor.State) (target : ℚ) (h : goodState st) :
    ∃ q : ℚ, BCSMotor.pyAbsSub st.position target = .ok (.pnum q) := by
  obtain ⟨q, hq⟩ := Option.isSome_iff_exists.mp h.1
  refine ⟨|q - target|, ?_⟩
  unfold BCSMotor.pyAbsSub pySub pyAbs
  rw [hq]
  simp [JVal.pyToNum]

/-- Main induction for the timeout window: started at iteration `k` with
the deadline not yet passed at iteration `k - 1`, with enough fuel to
reach an iteration past the deadline, and with status replies that keep
the state good, the loop settles as timed out at the first iteration
`kk` with `kk * iv > t`. -/
lemma monitor_timeout_window_aux (nm : String) (target t iv : ℚ)
    (tr : ℕ → Except PyErr JVal)
    (ht : 0 < t) (_hiv : 0 < iv)
    (hGood : ∀ j s, goodState s → goodState ((BCSMotor.update nm s (tr j)).1)) :
    ∀ (fuel k : ℕ) (st : BCSMotor.State), goodState st →
      ((k : ℚ) - 1) * iv ≤ t →
      (∃ m, k ≤ m ∧ m < k + fuel ∧ t < (m : ℚ) * iv) →
      ∃ kk, (BCSMotor.monitor_motor_status nm target (some t) iv tr st k fuel).2.2 =
          some (kk, .exn (.timeoutError "BCSMotor - monitor_motor_status() - Timeout.")) ∧
        t < (kk : ℚ) * iv ∧ ((kk : ℚ) - 1) * iv ≤ t := by
  intro fuel
  induction fuel with
  | zero =>
    rintro k st _ _ ⟨m, hm1, hm2, _⟩
    omega
  | succ fuel ih =>
    rintro k st hst hprev hex
    by_cases hk : t < (k : ℚ) * iv
    · have h1 : BCSMotor.timeoutTruthy (some t) = true := decide_eq_true ht.ne'
      have h2 : decide ((k : ℚ) * iv > (some t).getD 0) = true := decide_eq_true hk
      have hcond : (BCSMotor.timeoutTruthy (some t) &&
          decide ((k : ℚ) * iv > (some t).getD 0)) = true := by
        rw [h1, h2]; rfl
      rw [monitor_succ_timeout nm target (some t) iv tr st k fuel hcond]
      exact ⟨k, rfl, hk, hprev⟩
    · push_neg at hk
      have h2 : decide ((k : ℚ) * iv > (some t).getD 0) = false :=
        decide_eq_false (not_lt.mpr hk)
      have hcond : (BCSMotor.timeoutTruthy (some t) &&
          decide ((k : ℚ) * iv > (some t).getD 0)) = false := by
        rw [h2, Bool.and_false]
      have hst' := hGood k st hst
      obtain ⟨q, hq⟩ := goodState_absSub _ target hst'
      rw [monitor_succ_continue nm target (some t) iv tr st k fuel hcond _ hq hst'.2]
      have hprev' : (((k + 1 : ℕ) : ℚ) - 1) * iv ≤ t := by
        push_cast
        ring_nf
        ring_nf at hk
        exact hk
      have hex' : ∃ m, k + 1 ≤ m ∧ m < (k + 1) + fuel ∧ t < (m : ℚ) * iv := by
        obtain ⟨m, hm1, hm2, hm3⟩ := hex
        have hmk : m ≠ k := by
          rintro rfl
          exact absurd hm3 (not_lt.mpr hk)
        exact ⟨m, by omega, by omega, hm3⟩
      obtain ⟨kk, hres, hh1, hh2⟩ :=
        ih (k + 1) ((BCSMotor.update nm st (tr k)).1) hst' hprev' hex'
      exact ⟨kk, hres, hh1, hh2⟩

/-- The event a settlement emits is a settlement event. -/
lemma isSettleEvent_settleEventOf (s : Settle) : isSettleEvent (settleEventOf s) = true := by
  cases s <;> rfl

/-- Shape of every monitoring-loop run: either it is still running and
has emitted no settlement event, or it has settled and its event trace
is settlement-free polling followed by exactly one final settlement
event. -/
lemma monitor_settle_shape (nm : String) (target : ℚ) (t? : Option ℚ) (iv : ℚ)
    (tr : ℕ → Except PyErr JVal) :
    ∀ (fuel k : ℕ) (st : BCSMotor.State),
      ((BCSMotor.monitor_motor_status nm target t? iv tr st k fuel).2.2 = none ∧
        (BCSMotor.monitor_motor_status nm target t? iv tr st k fuel).1.filter
          (fun e => isSettleEvent e) = []) ∨
      (∃ o pre, (BCSMotor.monitor_motor_status nm target t? iv tr st k fuel).2.2 = some o ∧
        (BCSMotor.monitor_motor_status nm target t? iv tr st k fuel).1 =
          pre ++ [settleEventOf o.2] ∧
        pre.filter (fun e => isSettleEvent e) = []) := by
  intro fuel
  induction fuel with
  | zero => intro k st; exact Or.inl ⟨rfl, rfl⟩
  | succ fuel ih =>
    intro k st
    by_cases hcond : (BCSMotor.timeoutTruthy t? && decide ((k : ℚ) * iv > t?.getD 0)) = true
    · rw [monitor_succ_timeout nm target t? iv tr st k fuel hcond]
      exact Or.inr ⟨(k, .exn (.timeoutError "BCSMotor - monitor_motor_status() - Timeout.")),
        [], rfl, rfl, rfl⟩
    · have hcond' : (BCSMotor.timeoutTruthy t? && decide ((k : ℚ) * iv > t?.getD 0)) = false := by
        simpa using hcond
      rcases hq : BCSMotor.pyAbsSub ((BCSMotor.update nm st (tr k)).1).position target with e | q
      · rw [monitor_succ_differr nm target t? iv tr st k fuel e hcond' hq]
        exact Or.inr ⟨(k, .exn e), [.statusPoll nm], rfl, rfl, rfl⟩
      · by_cases hmc : ((BCSMotor.update nm st (tr k)).1).moveComplete.truthy = true
        · rw [monitor_succ_done nm target t? iv tr st k fuel hcond' q hq hmc]
          exact Or.inr ⟨(k, .finished), [.statusPoll nm], rfl, rfl, rfl⟩
        · have hmc' : ((BCSMotor.update nm st (tr k)).1).moveComplete.truthy = false := by
            simpa using hmc
          rw [monitor_succ_continue nm target t? iv tr st k fuel hcond' q hq hmc']
          rcases ih (k + 1) ((BCSMotor.update nm st (tr k)).1) with
            ⟨hres, hevs⟩ | ⟨o, pre, hres, hevs, hpre⟩
          · exact Or.inl ⟨hres, hevs⟩
          · exact Or.inr ⟨o, .statusPoll nm :: pre, hres, by simp [hevs], hpre⟩

/-- A settlement is stable under giving the loop more fuel: the loop
would have stopped at the settlement, so running it longer changes
nothing. -/
lemma monitor_fuel_mono (nm : String) (target : ℚ) (t? : Option ℚ) (iv : ℚ)
    (tr : ℕ → Except PyErr JVal) :
    ∀ (fuel fuel' k : ℕ) (st : BCSMotor.State) (o : ℕ × Settle), fuel ≤ fuel' →
      (BCSMotor.monitor_motor_status nm target t? iv tr st k fuel).2.2 = some o →
      (BCSMotor.monitor_motor_status nm target t? iv tr st k fuel').2.2 = some o := by
  intro fuel
  induction fuel with
  | zero =>
    intro fuel' k st o _ h
    simp [BCSMotor.monitor_motor_status] at h
  | succ fuel ih =>
    intro fuel' k st o hle h
    obtain ⟨fuel'', rfl⟩ : ∃ f, fuel' = f + 1 := ⟨fuel' - 1, by omega⟩
    by_cases hcond : (BCSMotor.timeoutTruthy t? && decide ((k : ℚ) * iv > t?.getD 0)) = true
    · rw [monitor_succ_timeout nm target t? iv tr st k fuel hcond] at h
      rw [monitor_succ_timeout nm target t? iv tr st k fuel'' hcond]
      exact h
    · have hcond' : (BCSMotor.timeoutTruthy t? && decide ((k : ℚ) * iv > t?.getD 0)) = false := by
        simpa using hcond
      rcases hq : BCSMotor.pyAbsSub ((BCSMotor.update nm st (tr k)).1).position target with e | q
      · rw [monitor_succ_differr nm target t? iv tr st k fuel e hcond' hq] at h
        rw [monitor_succ_differr nm target t? iv tr st k fuel'' e hcond' hq]
        exact h
      · by_cases hmc : ((BCSMotor.update nm st (tr k)).1).moveComplete.truthy = true
        · rw [monitor_succ_done nm target t? iv tr st k fuel hcond' q hq hmc] at h
          rw [monitor_succ_done nm target t? iv tr st k fuel'' hcond' q hq hmc]
          exact h
        · have hmc' : ((BCSMotor.update nm st (tr k)).1).moveComplete.truthy = false := by
            simpa using hmc
          rw [monitor_succ_continue nm target t? iv tr st k fuel hcond' q hq hmc'] at h
          rw [monitor_succ_continue nm target t? iv tr st k fuel'' hcond' q hq hmc']
          exact ih fuel'' (k + 1) ((BCSMotor.update nm st (tr k)).1) o (by omega) h

end MonitorLemmas

/-- C1 (code defect): a move-command reply naming the device in
`not_found` does make `_zmq_move_motor_async` raise the intended
`ValueError` identifying the device (first conjunct), but that exception
is raised inside the worker thread spawned by `zmq_move_motor` and is
lost at `thread.join()` (bcs_motor.py lines 383-389), so `move()`
continues: with no caller timeout and a server that keeps reporting the
move incomplete, three loop iterations issue three status polls — the
polling RPCs the claim forbids — and the handle is never settled as
failed (second conjunct: the settlement component is `none` and the
event trace is the move command followed by status polls only). -/
theorem c1_move_not_found_swallowed :
    BCSMotor.zmq_move_motor_async
        (.ok (.pdict [("success", .pbool true), ("not_found", .plist [.pstr "Motor 2"])])) =
      .error (.valueError ("Motors not found: " ++ jstr (.plist [.pstr "Motor 2"]))) ∧
    BCSMotor.move "Motor 2" 5 none (1 / 10)
        ⟨true, .pnum 0, .pbool true, false, none⟩
        (.ok (.pdict [("success", .pbool true), ("not_found", .plist [.pstr "Motor 2"])]))
        (fun _ => .ok (.pdict [("success", .pbool true),
          ("data", .plist [.pdict [("Motor State", .pdict [("Move Complete", .pbool false)]),
            ("Raw Motor Position", .pnum 1)]])]))
        3 =
      ([MEvent.moveCmd ["Motor 2"] [5], .statusPoll "Motor 2", .statusPoll "Motor 2",
        .statusPoll "Motor 2"],
       ⟨true, .pnum 1, .pbool false, true, none⟩, none) :=
  ⟨rfl, rfl⟩

/-- C2 counterexample: five consecutive status RPCs that raise are all
caught inside `update()` (bcs_motor.py lines 304-305), so the monitoring
loop — run here with no caller timeout — issues five polls, keeps the
state unchanged, and settles nothing, contradicting the claim that the
loop settles the handle with the status RPC's error and stops. -/
theorem c2_status_error_swallowed_cex :
    BCSMotor.monitor_motor_status "Motor 2" 5 none (1 / 10)
        (fun _ => .error (.runtimeError "socket error"))
        ⟨true, .pnum 0, .pbool false, true, none⟩ 0 5 =
      (List.replicate 5 (MEvent.statusPoll "Motor 2"),
       ⟨true, .pnum 0, .pbool false, true, none⟩, none) :=
  rfl

/-- C2 (amended): errors raised by the status RPC are caught and logged
inside `update()`, which leaves the motor state unchanged, so the
monitoring loop keeps polling indefinitely instead of settling the
handle: for every run whose status RPCs all fail, started with a falsy
caller timeout, a numeric cached position and the move not yet complete,
the loop performs exactly one status poll per iteration, never changes
the state, and never settles the handle.  (The loop's own error handler
settles the handle only for exceptions raised outside `update()`, and a
truthy caller timeout can still settle it as timed out.) -/
theorem c2_status_error_keeps_polling (originalName : String) (target : ℚ)
    (t? : Option ℚ) (iv : ℚ) (tr : ℕ → Except PyErr JVal) (st : BCSMotor.State)
    (k fuel : ℕ)
    (hT : BCSMotor.timeoutTruthy t? = false)
    (hE : ∀ j, ∃ e, tr j = .error e)
    (hP : (pyToNum st.position).isSome = true)
    (hM : st.moveComplete.truthy = false) :
    BCSMotor.monitor_motor_status originalName target t? iv tr st k fuel =
      (List.replicate fuel (MEvent.statusPoll originalName), st, none) := by
  induction fuel generalizing k with
  | zero => rfl
  | succ fuel ih =>
    have hu : (BCSMotor.update originalName st (tr k)).1 = st := by
      obtain ⟨e, he⟩ := hE k
      simp [BCSMotor.update, BCSMotor.zmq_get_motor_full, he]
    obtain ⟨q, hq⟩ := Option.isSome_iff_exists.mp hP
    have hd : BCSMotor.pyAbsSub st.position target = .ok (.pnum |q - target|) := by
      unfold BCSMotor.pyAbsSub pySub pyAbs
      rw [hq]
      simp [JVal.pyToNum]
    rw [BCSMotor.monitor_motor_status]
    simp [hT, hu, hd, hM, ih (k + 1), List.replicate_succ]

/-- C2 witness: the amended statement at a concrete run of three failing
status polls. -/
theorem c2_status_error_keeps_polling_witness :
    BCSMotor.monitor_motor_status "Motor 2" 5 none (1 / 10)
        (fun _ => .error (.connectionError "down"))
        ⟨true, .pnum 2, .pbool false, true, none⟩ 0 3 =
      (List.replicate 3 (MEvent.statusPoll "Motor 2"),
       ⟨true, .pnum 2, .pbool false, true, none⟩, none) :=
  c2_status_error_keeps_polling "Motor 2" 5 none (1 / 10)
    (fun _ => .error (.connectionError "down"))
    ⟨true, .pnum 2, .pbool false, true, none⟩ 0 3 rfl
    (fun _ => ⟨.connectionError "down", rfl⟩) rfl rfl

/-- C3 counterexample: calling `set(v)` on an unconnected analog-input
channel first performs a network connection attempt (`ensure_connected`
runs before the `itemType` dispatch, src/bcs_signal.py line 229), so the
rejection does not happen "before any RPC or network connection attempt
is issued" as claimed: the event list of the call contains a connection
attempt. -/
theorem c3_set_ai_preconnect_cex :
    BCSSignal.set "ai" "New AI 2" "127.0.0.1" 5577 ⟨false⟩ true (.pdict []) =
      ([NetEvent.connectAttempt "127.0.0.1" 5577], ⟨true⟩,
        .error (.notImplementedError
          "Setting values for AI channels is not supported: New AI 2")) ∧
    NetEvent.connectAttempt "127.0.0.1" 5577 ∈
      (BCSSignal.set "ai" "New AI 2" "127.0.0.1" 5577 ⟨false⟩ true (.pdict [])).1 :=
  ⟨rfl, by decide⟩

/-- C3 (amended): `set(v)` on an analog-input channel raises the
`Unsupported` (`NotImplementedError`) rejection determined solely by the
static `itemType`, and never issues any domain RPC; however `set()` first
awaits `ensure_connected`, so on a not-yet-connected signal a network
connection attempt is made before the rejection (and a failing connect
raises `ConnectionError` instead).  On an already-connected signal no
network action at all is performed. -/
theorem c3_set_ai_rejects_without_rpc (originalName host : String) (port : ℕ)
    (st : BCSSignal.State) (connectOk : Bool) (response : JVal) :
    (∀ cmd targets, NetEvent.rpcCall cmd targets ∉
      (BCSSignal.set "ai" originalName host port st connectOk response).1) ∧
    (st.connected = true ∨ connectOk = true →
      (BCSSignal.set "ai" originalName host port st connectOk response).2.2 =
        .error (.notImplementedError
          ("Setting values for AI channels is not supported: " ++ originalName))) ∧
    (st.connected = true →
      (BCSSignal.set "ai" originalName host port st connectOk response).1 = []) := by
  rcases st with ⟨c⟩
  cases c <;> cases connectOk <;>
    simp [BCSSignal.set, BCSSignal.ensure_connected]

/-- C3 witness: the amended rejection at a concrete connected signal. -/
theorem c3_set_ai_rejects_without_rpc_witness :
    (BCSSignal.set "ai" "New AI 2" "127.0.0.1" 5577 ⟨true⟩ false (.pdict [])).2.2 =
      .error (.notImplementedError
        "Setting values for AI channels is not supported: New AI 2") ∧
    (BCSSignal.set "ai" "New AI 2" "127.0.0.1" 5577 ⟨true⟩ false (.pdict [])).1 = [] :=
  ⟨(c3_set_ai_rejects_without_rpc "New AI 2" "127.0.0.1" 5577 ⟨true⟩ false
      (.pdict [])).2.1 (Or.inl rfl),
   (c3_set_ai_rejects_without_rpc "New AI 2" "127.0.0.1" 5577 ⟨true⟩ false
      (.pdict [])).2.2 rfl⟩

/-- C6 counterexample: on a never-connected motor whose connection
attempt fails, the worker thread of `zmq_stop_motor` raises inside
`_ensure_connected` (bcs_motor.py line 431) before `stop_motor` is ever
called, and that exception is lost at `thread.join()`: the call's only
network event is the failed connection attempt and zero stop-command
RPCs are issued, refuting the claim that every call to `stop()` issues
exactly one stop-command RPC. -/
theorem c6_stop_no_rpc_on_failed_connect_cex :
    (BCSMotor.stop "Motor 2" ⟨false, .pnum 0, .pbool false, true, none⟩ false
        (.ok (.pdict [("success", .pbool true)]))).1 = [MEvent.connectAttempt] ∧
    (BCSMotor.stop "Motor 2" ⟨false, .pnum 0, .pbool false, true, none⟩ false
        (.ok (.pdict [("success", .pbool true)]))).1.countP (fun e => isStopCmd e) = 0 :=
  ⟨rfl, rfl⟩

/-- C6 (amended): every call of `BCSMotor.stop()` sets the local
`isMoving` flag to `false`, leaves the pending move's `Status` handle
and every other motor field untouched, and — holding for every
`stopRaw`, including a failing stop RPC, since the worker thread's
exception is lost at `thread.join()` — never raises to its caller (the
model's caller-visible result is total in `stopRaw`).  At most one
stop-command RPC is ever issued, and exactly one whenever the device is
already connected or the connection attempt succeeds; on a
never-connected device whose connect fails, the worker thread dies
before the stop RPC and the call issues none (see the counterexample),
so the original "every call issues exactly one stop RPC" does not hold
unconditionally. -/
theorem c6_stop_contract (originalName : String) (st : BCSMotor.State)
    (connectOk : Bool) (stopRaw : Except PyErr JVal) :
    (BCSMotor.stop originalName st connectOk stopRaw).2.1.isMoving = false ∧
    (BCSMotor.stop originalName st connectOk stopRaw).2.1.moveStatus = st.moveStatus ∧
    (BCSMotor.stop originalName st connectOk stopRaw).2.1.position = st.position ∧
    (BCSMotor.stop originalName st connectOk stopRaw).2.1.moveComplete = st.moveComplete ∧
    (st.connected = true →
      (BCSMotor.stop originalName st connectOk stopRaw).1 = [MEvent.stopCmd [originalName]]) ∧
    ((BCSMotor.stop originalName st connectOk stopRaw).1.countP (fun e => isStopCmd e) ≤ 1) ∧
    (st.connected = true ∨ connectOk = true →
      (BCSMotor.stop originalName st connectOk stopRaw).1.countP (fun e => isStopCmd e) = 1) := by
  rcases st with ⟨c, pos, mc, mv, ms⟩
  cases c <;> cases connectOk <;>
    cases hz : BCSMotor.zmq_stop_motor_async stopRaw <;>
      simp [BCSMotor.stop, BCSMotor.ensure_connected, hz, isStopCmd]

/-- C6 witness: the stop contract at a concrete connected motor whose
stop RPC fails remotely. -/
theorem c6_stop_contract_witness :
    (BCSMotor.stop "Motor 2" ⟨true, .pnum 4, .pbool false, true, none⟩ true
        (.ok (.pdict [("success", .pbool false)]))).1 = [MEvent.stopCmd ["Motor 2"]] ∧
    (BCSMotor.stop "Motor 2" ⟨true, .pnum 4, .pbool false, true, none⟩ true
        (.ok (.pdict [("success", .pbool false)]))).1.countP (fun e => isStopCmd e) = 1 :=
  ⟨(c6_stop_contract "Motor 2" ⟨true, .pnum 4, .pbool false, true, none⟩ true
      (.ok (.pdict [("success", .pbool false)]))).2.2.2.2.1 rfl,
   (c6_stop_contract "Motor 2" ⟨true, .pnum 4, .pbool false, true, none⟩ true
      (.ok (.pdict [("success", .pbool false)]))).2.2.2.2.2.2 (Or.inl rfl)⟩

/-- C7: for the readable channel's `get()` (the analog-input branch), in
the code's check order: a reply with falsy `success` raises the remote
error (`RuntimeError` with the server's description); a truthy-success
reply whose `not_found` list names the channel raises the not-found
error (`ValueError`); and a truthy-success reply with no pending
not-found entry and an empty `data` list raises the no-data error
(`ValueError`), never returning a default value. -/
theorem c7_get_error_taxonomy (name : String) (d : List (String × JVal)) :
    ((((lookupKey d "success").getD (JVal.pbool false)).truthy = false →
      BCSSignal.get_ai name (.pdict d) = .error (.runtimeError
        ("Failed to get AI data: " ++
          jstr ((lookupKey d "error_description").getD (.pstr "Unknown error"))))) ∧
     (∀ l : List JVal, ((lookupKey d "success").getD (JVal.pbool false)).truthy = true →
       lookupKey d "not_found" = some (.plist l) → JVal.pstr name ∈ l →
       BCSSignal.get_ai name (.pdict d) =
         .error (.valueError ("AI channel not found: " ++ name))) ∧
     (((lookupKey d "success").getD (JVal.pbool false)).truthy = true →
       (lookupKey d "not_found" = none ∨ lookupKey d "not_found" = some (.plist [])) →
       lookupKey d "data" = some (.plist []) →
       BCSSignal.get_ai name (.pdict d) =
         .error (.valueError ("No data returned for AI: " ++ name)))) := by
  refine ⟨fun h => ?_, fun l h hnf hmem => ?_, fun h hnf hdata => ?_⟩
  · simp [BCSSignal.get_ai, pyGet, h]
  · have hl : (JVal.plist l).truthy = true := by
      rcases l with _ | ⟨a, l⟩
      · simp at hmem
      · simp [truthy]
    unfold BCSSignal.get_ai
    simp only [pyGet, h, Bool.not_true, Bool.false_eq_true, if_false]
    unfold BCSSignal.get_ai_nf
    simp [pyContains, pySubsKey, hnf, hl]
  · unfold BCSSignal.get_ai
    simp only [pyGet, h, Bool.not_true, Bool.false_eq_true, if_false]
    unfold BCSSignal.get_ai_nf
    rcases hnf with hnf | hnf <;>
      simp [pyContains, pySubsKey, hnf, BCSSignal.get_ai_extract, pyLen, hdata, truthy]

/-- C7 witness: the three error branches at concrete replies. -/
theorem c7_get_error_taxonomy_witness :
    BCSSignal.get_ai "New AI 2"
        (.pdict [("success", .pbool false), ("error_description", .pstr "oops")]) =
      .error (.runtimeError "Failed to get AI data: oops") ∧
    BCSSignal.get_ai "New AI 2"
        (.pdict [("success", .pbool true), ("not_found", .plist [.pstr "New AI 2"])]) =
      .error (.valueError "AI channel not found: New AI 2") ∧
    BCSSignal.get_ai "New AI 2"
        (.pdict [("success", .pbool true), ("data", .plist [])]) =
      .error (.valueError "No data returned for AI: New AI 2") :=
  ⟨(c7_get_error_taxonomy "New AI 2"
      [("success", .pbool false), ("error_description", .pstr "oops")]).1 (by decide),
   (c7_get_error_taxonomy "New AI 2"
      [("success", .pbool true), ("not_found", .plist [.pstr "New AI 2"])]).2.1
      [.pstr "New AI 2"] (by decide) rfl (List.mem_singleton.mpr rfl),
   (c7_get_error_taxonomy "New AI 2"
      [("success", .pbool true), ("data", .plist [])]).2.2 (by decide) (Or.inl rfl) rfl⟩

/-- C8: a successful `BCSMotor.read()` returns exactly the mapping shape
name-to-(value, timestamp) with the locally generated capture-time
timestamp and caches the value as the position; `BCSMotor.describe()`
returns exactly the shape name-to-(source, dtype, shape, units); and a
successful `BCSSignal.read()` returns the same name-to-(value,
timestamp) shape with its locally generated timestamp. -/
theorem c8_read_describe_shapes (name units ts originalName itemType : String)
    (st : BCSMotor.State) (raw : Except PyErr JVal) (response : JVal) (tsq : ℚ) :
    (∃ shp, BCSMotor.describe name units = specDescribeShape name "BCSMotor" "number" shp units) ∧
    (∀ out, (BCSMotor.read name st raw ts).2 = .ok out →
      ∃ v, out = specReadShape name v (.pstr ts) ∧
        (BCSMotor.read name st raw ts).1.position = v) ∧
    (∀ out, BCSSignal.read itemType name originalName response tsq = .ok out →
      ∃ v, out = specReadShape name v (.pnum tsq)) := by
  refine ⟨⟨[], rfl⟩, fun out hout => ?_, fun out hout => ?_⟩
  · unfold BCSMotor.read at hout
    rcases h0 : BCSMotor.zmq_get_motor_full_async raw with e | queryResult
    · rw [h0] at hout; simp at hout
    · rw [h0] at hout
      rcases h1 : pyIndex queryResult 0 with e | first
      · simp [h1] at hout
      · rcases h2 : pySubsKey first "Raw Motor Position" with e | pos
        · simp [h1, h2] at hout
        · simp only [h1, h2, Except.ok.injEq] at hout
          refine ⟨pos, hout.symm, ?_⟩
          simp [BCSMotor.read, h0, h1, h2]
  · unfold BCSSignal.read at hout
    rcases h0 : BCSSignal.get itemType originalName response with e | v
    · rw [h0] at hout; simp at hout
    · rw [h0] at hout
      simp only [Except.ok.injEq] at hout
      exact ⟨v, hout.symm⟩

/-- C8 witness: the read shape at a concrete successful motor read. -/
theorem c8_read_describe_shapes_witness :
    ∃ v, (JVal.pdict [("m2", .pdict [("value", .pnum 3), ("timestamp", .pstr "T")])]) =
        specReadShape "m2" v (.pstr "T") ∧
      (BCSMotor.read "m2" ⟨true, .pnum 0, .pbool false, false, none⟩
        (.ok (.pdict [("success", .pbool true),
          ("data", .plist [.pdict [("Raw Motor Position", .pnum 3)]])])) "T").1.position = v :=
  (c8_read_describe_shapes "m2" "mm" "T" "Motor 2" "motor"
    ⟨true, .pnum 0, .pbool false, false, none⟩
    (.ok (.pdict [("success", .pbool true),
      ("data", .plist [.pdict [("Raw Motor Position", .pnum 3)]])]))
    (.pdict []) 0).2.1
    (.pdict [("m2", .pdict [("value", .pnum 3), ("timestamp", .pstr "T")])]) rfl

/-- C10: `BCSMotor.update()` never propagates an exception to its caller
(the model returns the caught exception alongside the state; the caller
sees only the state): for every outcome of the status RPC or of parsing
its reply, the fields other than `_position` and `moveComplete` are
never modified, and when any step fails (the caught exception is
`some e`) the whole state, `_position` and `moveComplete` included,
retains its prior value. -/
theorem c10_update_never_raises_frame (originalName : String) (st : BCSMotor.State)
    (raw : Except PyErr JVal) :
    ((BCSMotor.update originalName st raw).1.connected = st.connected ∧
     (BCSMotor.update originalName st raw).1.isMoving = st.isMoving ∧
     (BCSMotor.update originalName st raw).1.moveStatus = st.moveStatus) ∧
    ((BCSMotor.update originalName st raw).2 ≠ none →
      (BCSMotor.update originalName st raw).1 = st) := by
  unfold BCSMotor.update
  rcases h0 : BCSMotor.zmq_get_motor_full originalName raw with e | listResult
  · simp
  · rcases h1 : pyIndex listResult 0 with e | fullDictionary
    · simp [h1]
    · rcases h2 : pyGet fullDictionary "Motor State" (.pdict []) with e | motorState
      · simp [h1, h2]
      · rcases h3 : pyGet motorState "Move Complete" (.pbool false) with e | mc
        · simp [h1, h2, h3]
        · rcases h5 : pyGet fullDictionary "Raw Motor Position" st.position with e | p
          · cases fullDictionary <;> simp_all [pyGet]
          · simp [h1, h2, h3, h5]

/-- C10 witness: a failing status RPC leaves a concrete state unchanged. -/
theorem c10_update_never_raises_frame_witness :
    (BCSMotor.update "Motor 2" ⟨true, .pnum 0, .pbool false, true, none⟩
        (.error (.runtimeError "boom"))).2 ≠ none ∧
    (BCSMotor.update "Motor 2" ⟨true, .pnum 0, .pbool false, true, none⟩
        (.error (.runtimeError "boom"))).1 = ⟨true, .pnum 0, .pbool false, true, none⟩ :=
  ⟨by decide,
   (c10_update_never_raises_frame "Motor 2" ⟨true, .pnum 0, .pbool false, true, none⟩
      (.error (.runtimeError "boom"))).2 (by decide)⟩

/-- C4 counterexample: with a caller-supplied timeout of `t = 0` the
guard `if timeout and ...` (bcs_motor.py line 196) treats the timeout as
falsy and never fires: twelve iterations (logical elapsed time 1.2 s,
far past `t + one poll interval = 0.1 s`) of a server that never reports
completion produce twelve status polls and no settlement at all, so the
handle does not settle as timed out within the claimed window. -/
theorem c4_timeout_zero_cex :
    BCSMotor.monitor_motor_status "Motor 2" 5 (some 0) (1 / 10)
        (fun _ => .ok (.pdict [("success", .pbool true),
          ("data", .plist [.pdict [("Motor State", .pdict [("Move Complete", .pbool false)]),
            ("Raw Motor Position", .pnum 1)]])]))
        ⟨true, .pnum 0, .pbool false, true, none⟩ 0 12 =
      (List.replicate 12 (MEvent.statusPoll "Motor 2"),
       ⟨true, .pnum 1, .pbool false, true, none⟩, none) :=
  rfl

/-- C4 (amended): for every caller-supplied timeout `t > 0` (a timeout
of 0 is falsy in the guard of bcs_motor.py line 196 and disables the
deadline entirely) and poll interval `iv > 0`, if the status replies
never report completion and keep the cached position numeric, then —
under the logical-time model where each iteration consumes exactly one
poll interval — a run with enough fuel settles the handle as timed out
at an iteration `kk` with `t < kk * iv ≤ t + iv`: no earlier than `t`
and no later than `t` plus one poll interval after the move started. -/
theorem c4_timeout_window (nm : String) (target t iv : ℚ)
    (tr : ℕ → Except PyErr JVal) (st : BCSMotor.State) (fuel : ℕ)
    (ht : 0 < t) (hiv : 0 < iv)
    (hGood : ∀ j s, goodState s → goodState ((BCSMotor.update nm s (tr j)).1))
    (hst : goodState st)
    (hFuel : ∃ m, m < fuel ∧ t < (m : ℚ) * iv) :
    ∃ kk, (BCSMotor.monitor_motor_status nm target (some t) iv tr st 0 fuel).2.2 =
        some (kk, .exn (.timeoutError "BCSMotor - monitor_motor_status() - Timeout.")) ∧
      t < (kk : ℚ) * iv ∧ (kk : ℚ) * iv ≤ t + iv := by
  obtain ⟨m, hm1, hm2⟩ := hFuel
  obtain ⟨kk, hres, h1, h2⟩ :=
    monitor_timeout_window_aux nm target t iv tr ht hiv hGood fuel 0 st hst
      (by push_cast; nlinarith) ⟨m, Nat.zero_le m, by omega, hm2⟩
  exact ⟨kk, hres, h1, by nlinarith⟩

/-- C4 witness: the amended window at `t = 0.5 s`, `iv = 0.1 s`, a
status RPC that always fails (leaving the state good), and fuel 10. -/
theorem c4_timeout_window_witness :
    ∃ kk, (BCSMotor.monitor_motor_status "Motor 2" 5 (some (1 / 2)) (1 / 10)
        (fun _ => .error (.runtimeError "x"))
        ⟨true, .pnum 0, .pbool false, true, none⟩ 0 10).2.2 =
        some (kk, .exn (.timeoutError "BCSMotor - monitor_motor_status() - Timeout.")) ∧
      (1 / 2 : ℚ) < (kk : ℚ) * (1 / 10) ∧ (kk : ℚ) * (1 / 10) ≤ 1 / 2 + 1 / 10 :=
  c4_timeout_window "Motor 2" 5 (1 / 2) (1 / 10) (fun _ => .error (.runtimeError "x"))
    ⟨true, .pnum 0, .pbool false, true, none⟩ 10 (by norm_num) (by norm_num)
    (fun j s hs => by
      simpa [BCSMotor.update, BCSMotor.zmq_get_motor_full] using hs)
    ⟨by decide, by decide⟩
    ⟨6, by norm_num, by push_cast; norm_num⟩

/-- C5: the settlement of a move operation's handle is monotonic and
unique: every monitoring-loop run emits at most one settlement event;
when the run settles, the settlement event is the final event of its
trace (nothing happens afterwards) and matches the recorded outcome;
when the run has not settled, no settlement event has been emitted; and
a recorded settlement never changes when the loop is given more fuel. -/
theorem c5_settle_once_monotonic (nm : String) (target : ℚ) (t? : Option ℚ) (iv : ℚ)
    (tr : ℕ → Except PyErr JVal) (st : BCSMotor.State) (k fuel : ℕ) :
    ((BCSMotor.monitor_motor_status nm target t? iv tr st k fuel).1.filter
        (fun e => isSettleEvent e)).length ≤ 1 ∧
    (∀ o, (BCSMotor.monitor_motor_status nm target t? iv tr st k fuel).2.2 = some o →
      ∃ pre, (BCSMotor.monitor_motor_status nm target t? iv tr st k fuel).1 =
          pre ++ [settleEventOf o.2] ∧ pre.filter (fun e => isSettleEvent e) = []) ∧
    ((BCSMotor.monitor_motor_status nm target t? iv tr st k fuel).2.2 = none →
      (BCSMotor.monitor_motor_status nm target t? iv tr st k fuel).1.filter
        (fun e => isSettleEvent e) = []) ∧
    (∀ fuel' o, fuel ≤ fuel' →
      (BCSMotor.monitor_motor_status nm target t? iv tr st k fuel).2.2 = some o →
      (BCSMotor.monitor_motor_status nm target t? iv tr st k fuel').2.2 = some o) := by
  refine ⟨?_, ?_, ?_,
    fun fuel' o hle h => monitor_fuel_mono nm target t? iv tr fuel fuel' k st o hle h⟩
  · rcases monitor_settle_shape nm target t? iv tr fuel k st with
      ⟨_, hevs⟩ | ⟨o, pre, _, hevs, hpre⟩
    · simp [hevs]
    · rw [hevs, List.filter_append, hpre]
      simp [isSettleEvent_settleEventOf]
  · intro o ho
    rcases monitor_settle_shape nm target t? iv tr fuel k st with
      ⟨hres, _⟩ | ⟨o', pre, hres, hevs, hpre⟩
    · rw [hres] at ho; cases ho
    · rw [hres] at ho
      obtain rfl : o' = o := Option.some.inj ho
      exact ⟨pre, hevs, hpre⟩
  · intro ho
    rcases monitor_settle_shape nm target t? iv tr fuel k st with
      ⟨_, hevs⟩ | ⟨o, pre, hres, hevs, hpre⟩
    · exact hevs
    · rw [hres] at ho; cases ho

/-- C5 witness: a run that completes on the first poll settles once,
with the settlement event last, and the settlement survives extra fuel. -/
theorem c5_settle_once_monotonic_witness :
    (∃ pre, (BCSMotor.monitor_motor_status "Motor 2" 5 none (1 / 10)
        (fun _ => .ok (.pdict [("success", .pbool true),
          ("data", .plist [.pdict [("Motor State", .pdict [("Move Complete", .pbool true)]),
            ("Raw Motor Position", .pnum 5)]])]))
        ⟨true, .pnum 0, .pbool false, true, none⟩ 0 2).1 =
        pre ++ [MEvent.settleDone] ∧ pre.filter (fun e => isSettleEvent e) = []) ∧
    (BCSMotor.monitor_motor_status "Motor 2" 5 none (1 / 10)
        (fun _ => .ok (.pdict [("success", .pbool true),
          ("data", .plist [.pdict [("Motor State", .pdict [("Move Complete", .pbool true)]),
            ("Raw Motor Position", .pnum 5)]])]))
        ⟨true, .pnum 0, .pbool false, true, none⟩ 0 3).2.2 = some (0, .finished) :=
  ⟨(c5_settle_once_monotonic "Motor 2" 5 none (1 / 10)
      (fun _ => .ok (.pdict [("success", .pbool true),
        ("data", .plist [.pdict [("Motor State", .pdict [("Move Complete", .pbool true)]),
          ("Raw Motor Position", .pnum 5)]])]))
      ⟨true, .pnum 0, .pbool false, true, none⟩ 0 2).2.1 (0, .finished) rfl,
   (c5_settle_once_monotonic "Motor 2" 5 none (1 / 10)
      (fun _ => .ok (.pdict [("success", .pbool true),
        ("data", .plist [.pdict [("Motor State", .pdict [("Move Complete", .pbool true)]),
          ("Raw Motor Position", .pnum 5)]])]))
      ⟨true, .pnum 0, .pbool false, true, none⟩ 0 2).2.2.2 3 (0, .finished) (by omega) rfl⟩

/-- C9 counterexample: `BCSMotor._ensure_connected` tests `_connected`
without any lock, so two concurrent first-callers that interleave as
test, test, connect, connect both see the flag down and both connect:
the schedule below produces two connection attempts, not the claimed
exactly one. -/
theorem c9_motor_double_connect_cex :
    (Conc.motRun [0, 1, 0, 1] Conc.motInit).connects.val = 2 := by
  decide

/-- C9 (amended): `BCSSignal.ensure_connected` serializes the whole
test-connect-set sequence under `_connection_lock`: under every
interleaving of two first-caller threads, connection attempts are never
concurrently in flight; once an attempt has succeeded (the `_connected`
flag is set), no further attempt is ever made; when connection attempts
succeed, at most one attempt is made and exactly one once both calls
have finished; each caller attempts at most once (so two first-callers
make at most two attempts) — but a failing first attempt leaves
`_connected` down and releases the lock, so the second first-caller
attempts again: with both attempts failing, two attempts are made (one
per caller), not one total.  For both classes, once the connected flag
is set a (sequential) later call performs no further connect and returns
immediately; `BCSMotor._ensure_connected` has no mutual exclusion at
all, and its concurrent first-callers can each attempt a connection even
when every connect succeeds (see the counterexample). -/
theorem c9_ensure_connected_idempotency :
    (∀ (cok : Fin 2 → Bool) (sched : List (Fin 2)),
      ¬(((Conc.sigRun cok sched Conc.sigInit).pc0 = 2 ∨
          (Conc.sigRun cok sched Conc.sigInit).pc0 = 3) ∧
        ((Conc.sigRun cok sched Conc.sigInit).pc1 = 2 ∨
          (Conc.sigRun cok sched Conc.sigInit).pc1 = 3))) ∧
    (∀ (cok : Fin 2 → Bool) (s1 s2 : List (Fin 2)),
      (Conc.sigRun cok s1 Conc.sigInit).flag = true →
      Conc.attempts (Conc.sigRun cok s2 (Conc.sigRun cok s1 Conc.sigInit)) =
        Conc.attempts (Conc.sigRun cok s1 Conc.sigInit)) ∧
    (∀ sched : List (Fin 2),
      Conc.attempts (Conc.sigRun (fun _ => true) sched Conc.sigInit) ≤ 1 ∧
      ((Conc.sigRun (fun _ => true) sched Conc.sigInit).pc0 = 5 →
        (Conc.sigRun (fun _ => true) sched Conc.sigInit).pc1 = 5 →
        Conc.attempts (Conc.sigRun (fun _ => true) sched Conc.sigInit) = 1)) ∧
    (∀ (cok : Fin 2 → Bool) (sched : List (Fin 2)),
      Conc.attempts (Conc.sigRun cok sched Conc.sigInit) ≤ 2) ∧
    Conc.attempts (Conc.sigRun (fun _ => false) [0, 0, 0, 0, 1, 1, 1, 1] Conc.sigInit) = 2 ∧
    (∀ (st : BCSMotor.State) (connectOk : Bool), st.connected = true →
      BCSMotor.ensure_connected st connectOk = ([], st, .ok ())) ∧
    (∀ (host : String) (port : ℕ) (connectOk : Bool),
      BCSSignal.ensure_connected host port ⟨true⟩ connectOk = ([], ⟨true⟩, .ok ())) := by
  refine ⟨fun cok sched => ?_, fun cok s1 s2 hf => ?_, fun sched => ?_,
    fun cok sched => Nat.add_le_add (Bool.toNat_le _) (Bool.toNat_le _),
    by decide,
    fun st ok h => by simp [BCSMotor.ensure_connected, h],
    fun host port ok => by simp [BCSSignal.ensure_connected]⟩
  · obtain ⟨⟨hA0, hA1, -⟩, -, -⟩ :=
      Conc.sigInv_run cok sched Conc.sigInit (Conc.sigInv_init cok)
    rintro ⟨h0, h1⟩
    have l0 : (Conc.sigRun cok sched Conc.sigInit).lockHeld = some 0 := by
      refine hA0.mpr ?_
      rcases h0 with h | h
      · exact Or.inr (Or.inl h)
      · exact Or.inr (Or.inr (Or.inl h))
    have l1 : (Conc.sigRun cok sched Conc.sigInit).lockHeld = some 1 := by
      refine hA1.mpr ?_
      rcases h1 with h | h
      · exact Or.inr (Or.inl h)
      · exact Or.inr (Or.inr (Or.inl h))
    have := l0.symm.trans l1
    simp at this
  · exact (Conc.sig_run_stable_after_flag cok s2 _
      (Conc.sigInv_run cok s1 Conc.sigInit (Conc.sigInv_init cok)) hf).1
  · obtain ⟨-, ⟨-, -, hE0, -, -, -⟩, hF, hK⟩ :=
      Conc.sigInv_run (fun _ => true) sched Conc.sigInit (Conc.sigInv_init (fun _ => true))
    constructor
    · cases h0 : (Conc.sigRun (fun _ => true) sched Conc.sigInit).att0 <;>
        cases h1 : (Conc.sigRun (fun _ => true) sched Conc.sigInit).att1 <;>
          simp [Conc.attempts, h0, h1]
      exact hK ⟨h0, rfl, h1, rfl⟩
    · intro hp0 hp1
      have hflag : (Conc.sigRun (fun _ => true) sched Conc.sigInit).flag = true := by
        rcases hE0 (Or.inr hp0) with h | ⟨-, hco⟩
        · exact h
        · cases hco
      cases h0 : (Conc.sigRun (fun _ => true) sched Conc.sigInit).att0 <;>
        cases h1 : (Conc.sigRun (fun _ => true) sched Conc.sigInit).att1 <;>
          simp [Conc.attempts, h0, h1]
      · rcases hF hflag with ⟨ha, -⟩ | ⟨ha, -⟩
        · rw [h0] at ha; cases ha
        · rw [h1] at ha; cases ha
      · exact hK ⟨h0, rfl, h1, rfl⟩

/-- C9 witness: after one caller connected successfully, a full run of
the second caller adds no attempt; a concrete full interleaving of the
locked version with succeeding connects makes exactly one attempt; and a
motor already connected performs no further connect. -/
theorem c9_ensure_connected_idempotency_witness :
    Conc.attempts (Conc.sigRun (fun _ => true) [1, 1, 1, 1, 1]
        (Conc.sigRun (fun _ => true) [0, 0, 0, 0, 0] Conc.sigInit)) =
      Conc.attempts (Conc.sigRun (fun _ => true) [0, 0, 0, 0, 0] Conc.sigInit) ∧
    Conc.attempts (Conc.sigRun (fun _ => true) [0, 0, 0, 0, 0, 1, 1, 1] Conc.sigInit) = 1 ∧
    BCSMotor.ensure_connected ⟨true, .pnum 0, .pbool false, false, none⟩ false =
      ([], ⟨true, .pnum 0, .pbool false, false, none⟩, .ok ()) :=
  ⟨c9_ensure_connected_idempotency.2.1 (fun _ => true) [0, 0, 0, 0, 0] [1, 1, 1, 1, 1]
      (by decide),
   (c9_ensure_connected_idempotency.2.2.1 [0, 0, 0, 0, 0, 1, 1, 1]).2 (by decide) (by decide),
   c9_ensure_connected_idempotency.2.2.2.2.2.1
      ⟨true, .pnum 0, .pbool false, false, none⟩ false rfl⟩

end BCS
